import Mathlib

/-!
A shallow embedding of the session-guard and data-refresh logic of
`src/components/Screens/HomeScreen.tsx` (the HomeScreen component of the
abacus application), together with theorems about it.

Modelling conventions:
* JavaScript string truthiness is modelled by inequality with `""`.
* The secure-store read followed by `JSON.parse` is modelled by
  `parseStored`: a missing item (`null`) parses to `none`, a malformed
  item makes `JSON.parse` throw (`Except.error`), and a well-formed item
  yields the parsed object.
* External collaborators (the biometric provider, the token-refresh
  effect, the currencies fetch, the four data-fetch families) are
  modelled as oracle fields of the environment recording the outcome the
  collaborator would produce during this run.
* Side effects of the session guard (navigation resets, biometric
  prompts, refresh calls, currency fetches, toasts) are recorded in an
  event trace, in the order the source performs them.
* An exception that escapes a `try`/`catch` (an unhandled promise
  rejection of the async routine) is recorded in the `crashed` flag.
-/

namespace HomeScreen

/-- The credential object persisted in secure storage under
`secureKeys.tokens`: `{ accessToken, refreshToken, expiresAt }`.  The same
shape is returned by the token-refresh endpoint. -/
structure StorageValue where
  accessToken : String
  refreshToken : String
  expiresAt : Int
deriving DecidableEq

/-- What `SecureStore.getItemAsync` returned, when it was not `null`:
either a string `JSON.parse` rejects, or one parsing to a credential
object. -/
inductive Blob where
  | malformed
  | value (v : StorageValue)
deriving DecidableEq

/-- `JSON.parse(tokens)` over the optional stored string of
`HomeScreen.tsx` line 303-304.  `JSON.parse(null)` yields `null`
(modelled `Except.ok none`); a malformed string makes `JSON.parse`
throw (`Except.error ()`); otherwise the parsed object is returned. -/
def parseStored : Option Blob → Except Unit (Option StorageValue)
  | none => Except.ok none
  | some Blob.malformed => Except.error ()
  | some (Blob.value v) => Except.ok (some v)

/-- One observable side effect of the session-guard routine. -/
inductive Ev where
  | refreshCall (refreshToken : String)
  | bioPrompt
  | redirect
  | currenciesCall
  | toast (description : String)
deriving DecidableEq

/-- State mutated by the session-guard effect: the global
`axios.defaults.headers.Authorization` slot, the ordered trace of side
effects, and whether the routine aborted with an uncaught exception. -/
structure GuardState where
  header : Option String
  events : List Ev
  crashed : Bool
deriving DecidableEq

def GuardState.init : GuardState := { header := none, events := [], crashed := false }

/-- The outcomes the external collaborators would produce during one run
of the session-guard effect (lines 301-332). -/
structure Env where
  /-- `SecureStore.getItemAsync(secureKeys.tokens)`. -/
  stored : Option Blob
  /-- `configuration.backendURL`; `""` models a falsy value. -/
  backendURL : String
  /-- `configuration.faceId`. -/
  faceId : Bool
  /-- current time, for the freshness predicate. -/
  now : Int
  /-- outcome of `dispatch.firefly.getFreshAccessToken`, if called. -/
  refreshOutcome : Except String StorageValue
  /-- `(await LocalAuthentication.authenticateAsync()).success`. -/
  bioSuccess : Bool
  /-- outcome of `dispatch.currencies.getCurrencies`, if called. -/
  currenciesOutcome : Except String Unit

/-- `TokenResponse.isTokenFresh(storageValue)` (external library,
modelled at its interface boundary: a pure predicate of `expiresAt` and
the current time). -/
def isTokenFresh (now expiresAt : Int) : Bool :=
  decide (now < expiresAt)

/-- `goToOauth` (lines 283-290): dispatch a navigation reset to the
`oauth` route.  Note it does not touch the auth-header slot. -/
def goToOauth (s : GuardState) : GuardState :=
  { s with events := s.events ++ [Ev.redirect] }

/-- `faceIdCheck` (lines 292-299): when `faceId` is enabled, run the
biometric prompt; on a non-success result call `goToOauth` — and return
normally (no exception is raised, the caller keeps running). -/
def faceIdCheck (faceId bioSuccess : Bool) (s : GuardState) : GuardState :=
  if faceId then
    let s := { s with events := s.events ++ [Ev.bioPrompt] }
    if bioSuccess then s else goToOauth s
  else s

/-- Modelled from the spec: the token-refresh effect
`dispatch.firefly.getFreshAccessToken` (the firefly store model, code of
this repository not under `src/`): on success the new credential is
persisted and installed in the auth header; on failure it raises an
error carrying a message (handled at the call site). -/
def applyRefreshSuccess (cred : StorageValue) (s : GuardState) : GuardState :=
  { s with header := some ("Bearer " ++ cred.accessToken) }

/-- The toast description built in the `catch` block (line 323):
`translate('home_container_error_description') + ", " + e.message`, so
it contains the underlying failure message. -/
def errorToastDescription (msg : String) : String :=
  "home_container_error_description, " ++ msg

/-- The `await dispatch.currencies.getCurrencies()` step (line 314):
records the call; a rejection propagates to the enclosing `catch`. -/
def currenciesStep (env : Env) (s : GuardState) : GuardState × Option String :=
  let s := { s with events := s.events ++ [Ev.currenciesCall] }
  match env.currenciesOutcome with
  | Except.ok _ => (s, none)
  | Except.error msg => (s, some msg)

/-- The remainder of the `try` block after the freshness check:
`await faceIdCheck(); await dispatch.currencies.getCurrencies()`. -/
def afterRefreshSteps (env : Env) (s : GuardState) : GuardState × Option String :=
  currenciesStep env (faceIdCheck env.faceId env.bioSuccess s)

/-- The `try` block (lines 308-314): refresh when stale, then the
biometric check, then the currencies fetch.  The second component is the
message of an exception propagating to the `catch` block, if any; side
effects performed before the exception are kept. -/
def refreshStep (env : Env) (v : StorageValue) (s : GuardState) : GuardState × Option String :=
  if isTokenFresh env.now v.expiresAt then
    afterRefreshSteps env s
  else
    let s := { s with events := s.events ++ [Ev.refreshCall v.refreshToken] }
    match env.refreshOutcome with
    | Except.ok cred => afterRefreshSteps env (applyRefreshSuccess cred s)
    | Except.error msg => (s, some msg)

/-- Install the access token in the global header slot (line 306):
`axios.defaults.headers.Authorization = `Bearer ...``. -/
def installHeader (v : StorageValue) (s : GuardState) : GuardState :=
  { s with header := some ("Bearer " ++ v.accessToken) }

/-- The whole session-guard effect (lines 301-332).  `JSON.parse` runs
outside the `try`/`catch`, so a malformed stored blob aborts the async
routine with an uncaught exception: no redirect, no toast, no further
step.  When the parsed value, its `accessToken` and `backendURL` are all
truthy, the header is installed and the `try` block runs, its exception
(if any) surfacing as an error toast; otherwise `goToOauth` runs. -/
def establishSession (env : Env) : GuardState :=
  match parseStored env.stored with
  | Except.error _ => { GuardState.init with crashed := true }
  | Except.ok none => goToOauth GuardState.init
  | Except.ok (some v) =>
    if v.accessToken ≠ "" ∧ env.backendURL ≠ "" then
      match refreshStep env v (installHeader v GuardState.init) with
      | (s, some msg) => { s with events := s.events ++ [Ev.toast (errorToastDescription msg)] }
      | (s, none) => s
    else goToOauth GuardState.init

/-- Arguments of the refresh calls in the trace, in order. -/
def refreshCallArgs (s : GuardState) : List String :=
  s.events.filterMap fun e =>
    match e with
    | Ev.refreshCall t => some t
    | _ => none

/-- Descriptions of the toasts in the trace, in order. -/
def toastDescriptions (s : GuardState) : List String :=
  s.events.filterMap fun e =>
    match e with
    | Ev.toast d => some d
    | _ => none

/-- Number of biometric prompts in the trace. -/
def bioPromptCount (s : GuardState) : Nat :=
  (s.events.filter fun e =>
    match e with
    | Ev.bioPrompt => true
    | _ => false).length

/-- Number of navigation resets to the login route in the trace. -/
def redirectCount (s : GuardState) : Nat :=
  (s.events.filter fun e =>
    match e with
    | Ev.redirect => true
    | _ => false).length

/-- Number of currencies fetches in the trace. -/
def currenciesCallCount (s : GuardState) : Nat :=
  (s.events.filter fun e =>
    match e with
    | Ev.currenciesCall => true
    | _ => false).length

/-- `true` iff no refresh call occurs after a biometric prompt in the
trace: every refresh call precedes every biometric prompt. -/
def noRefreshCallAfterBio : List Ev → Bool
  | [] => true
  | Ev.bioPrompt :: rest =>
    rest.all fun e =>
      match e with
      | Ev.refreshCall _ => false
      | _ => true
  | _ :: rest => noRefreshCallAfterBio rest

/-- `true` iff some currencies fetch occurs after some redirect in the
trace. -/
def currenciesAfterRedirect : List Ev → Bool
  | [] => false
  | Ev.redirect :: rest =>
    (rest.any fun e =>
      match e with
      | Ev.currenciesCall => true
      | _ => false) || currenciesAfterRedirect rest
  | _ :: rest => currenciesAfterRedirect rest

/-- The composite filter key of the focus effect (line 358):
`rangeDetails.start`, `rangeDetails.end`, `currency.id`. -/
structure Fingerprint where
  rangeStart : String
  rangeEnd : String
  currencyId : String
deriving DecidableEq

/-- The template string compared against `prevFiltersRef.current`. -/
def fingerprintString (fp : Fingerprint) : String :=
  fp.rangeStart ++ "-" ++ fp.rangeEnd ++ "-" ++ fp.currencyId

/-- Outcomes of the four family fetches dispatched by one batch
(external data-fetch effects, modelled at their interface: each either
resolves with a result set or rejects with a message). -/
structure FetchOutcomes where
  netWorth : Except String String
  accounts : Except String String
  categories : Except String String
  budgets : Except String String

/-- Result slots of the four fetch families (each family's store slice;
a family writes its own slot when its fetch resolves). -/
structure Results where
  netWorth : Option String
  accounts : Option String
  categories : Option String
  budgets : Option String
deriving DecidableEq

/-- State carried across triggers of the focus effect (lines 339-367).
`toasts`, `redirects` and `crashed` are observation slots for what the
coordinator could surface: its code contains no toast, no navigation
call, and catches every batch rejection, so they are never written.
`lastCompleted` is a ghost observer recording the fingerprint of the
last batch in which all four fetches resolved; the source keeps no such
value — `prevFilters` (the ref `prevFiltersRef.current`) is what it
actually compares against. -/
structure CoordState where
  prevFilters : Option String
  results : Results
  fetchBatches : Nat
  fetchesIssued : Nat
  lastCompleted : Option String
  toasts : List String
  redirects : Nat
  crashed : Bool
deriving DecidableEq

def CoordState.init : CoordState :=
  { prevFilters := none
    results := { netWorth := none, accounts := none, categories := none, budgets := none }
    fetchBatches := 0, fetchesIssued := 0, lastCompleted := none
    toasts := [], redirects := 0, crashed := false }

/-- A family's store slice after its fetch settles: updated on success,
left as it was on rejection. -/
def applyOutcome (o : Except String String) (r : Option String) : Option String :=
  match o with
  | Except.ok v => some v
  | Except.error _ => r

/-- `true` iff `Promise.all` over the four fetches rejects. -/
def batchFailed (out : FetchOutcomes) : Bool :=
  match out.netWorth, out.accounts, out.categories, out.budgets with
  | Except.ok _, Except.ok _, Except.ok _, Except.ok _ => false
  | _, _, _, _ => true

/-- `fetchData` (lines 343-356): when the header slot is set (the
`isActive` conjunct is necessarily `true` here — `fetchData` is invoked
synchronously inside the focus callback, before any cleanup can run),
dispatch the four family fetches concurrently; each family records its
own result; a rejection of `Promise.all` lands in the empty `catch`
block, which swallows it. -/
def fetchData (headerSet : Bool) (out : FetchOutcomes) (fp : Fingerprint) (s : CoordState) : CoordState :=
  if headerSet then
    let s :=
      { s with
          results :=
            { netWorth := applyOutcome out.netWorth s.results.netWorth
              accounts := applyOutcome out.accounts s.results.accounts
              categories := applyOutcome out.categories s.results.categories
              budgets := applyOutcome out.budgets s.results.budgets }
          fetchBatches := s.fetchBatches + 1
          fetchesIssued := s.fetchesIssued + 4 }
    if batchFailed out then s
    else { s with lastCompleted := some (fingerprintString fp) }
  else s

/-- One trigger of the focus effect (lines 358-361).  `_deactivated`
models `isActive` having been set to `false` by the cleanup before the
in-flight batch resolved; the source never consults `isActive` after the
initial synchronous check inside `fetchData`, and it assigns
`prevFiltersRef.current` synchronously right after starting `fetchData`,
so the parameter has no influence on the resulting state. -/
def onTrigger (headerSet : Bool) (fp : Fingerprint) (out : FetchOutcomes)
    (_deactivated : Bool) (s : CoordState) : CoordState :=
  if s.prevFilters ≠ some (fingerprintString fp) then
    let s := fetchData headerSet out fp s
    { s with prevFilters := some (fingerprintString fp) }
  else s


/-- C7: for every stored credential that is valid and non-expired, with the
biometric lock disabled, the session guard completes as Authenticated: no
redirect, no refresh call, no biometric prompt, no toast, the header holds
the stored access token, and the routine does not abort. -/
theorem fresh_credential_authenticated_without_refresh_or_bio
    (env : Env) (v : StorageValue)
    (hst : env.stored = some (Blob.value v))
    (ha : v.accessToken ≠ "")
    (hb : env.backendURL ≠ "")
    (hfresh : env.now < v.expiresAt)
    (hface : env.faceId = false)
    (hcur : env.currenciesOutcome = Except.ok ()) :
    redirectCount (establishSession env) = 0 ∧
    refreshCallArgs (establishSession env) = [] ∧
    bioPromptCount (establishSession env) = 0 ∧
    toastDescriptions (establishSession env) = [] ∧
    (establishSession env).header = some ("Bearer " ++ v.accessToken) ∧
    (establishSession env).crashed = false := by
  have hf : isTokenFresh env.now v.expiresAt = true := decide_eq_true hfresh
  simp [establishSession, hst, parseStored, ha, hb, refreshStep, hf,
        afterRefreshSteps, faceIdCheck, hface, currenciesStep, hcur,
        installHeader, GuardState.init, redirectCount, refreshCallArgs,
        bioPromptCount, toastDescriptions]

/-- C7 witness: the theorem applied to a concrete fresh credential. -/
theorem fresh_credential_authenticated_without_refresh_or_bio_witness :
    redirectCount (establishSession ⟨some (Blob.value ⟨"A", "R", 10⟩), "https://backend", false, 0, Except.error "boom", true, Except.ok ()⟩) = 0 ∧
    refreshCallArgs (establishSession ⟨some (Blob.value ⟨"A", "R", 10⟩), "https://backend", false, 0, Except.error "boom", true, Except.ok ()⟩) = [] ∧
    bioPromptCount (establishSession ⟨some (Blob.value ⟨"A", "R", 10⟩), "https://backend", false, 0, Except.error "boom", true, Except.ok ()⟩) = 0 ∧
    toastDescriptions (establishSession ⟨some (Blob.value ⟨"A", "R", 10⟩), "https://backend", false, 0, Except.error "boom", true, Except.ok ()⟩) = [] ∧
    (establishSession ⟨some (Blob.value ⟨"A", "R", 10⟩), "https://backend", false, 0, Except.error "boom", true, Except.ok ()⟩).header = some ("Bearer " ++ "A") ∧
    (establishSession ⟨some (Blob.value ⟨"A", "R", 10⟩), "https://backend", false, 0, Except.error "boom", true, Except.ok ()⟩).crashed = false :=
  fresh_credential_authenticated_without_refresh_or_bio
    ⟨some (Blob.value ⟨"A", "R", 10⟩), "https://backend", false, 0, Except.error "boom", true, Except.ok ()⟩
    ⟨"A", "R", 10⟩ rfl (by decide) (by decide) (by decide) rfl rfl

/-- C5: for every stored, parsable credential with `expiresAt` in the past
(and the guard conditions met), the guard calls the token-refresh effect
exactly once with the stored refresh token — whatever the outcome of that
call; and when the call fails with a message, the user sees exactly one
error toast containing the message, no redirect occurs, no biometric prompt
nor currencies fetch runs, and the header still holds the old (stale)
access token. -/
theorem stale_credential_refresh_once_failure_toast
    (env : Env) (v : StorageValue) (msg : String)
    (hst : env.stored = some (Blob.value v))
    (ha : v.accessToken ≠ "")
    (hb : env.backendURL ≠ "")
    (hexp : v.expiresAt ≤ env.now) :
    refreshCallArgs (establishSession env) = [v.refreshToken] ∧
    (env.refreshOutcome = Except.error msg →
      toastDescriptions (establishSession env) = [errorToastDescription msg] ∧
      redirectCount (establishSession env) = 0 ∧
      bioPromptCount (establishSession env) = 0 ∧
      currenciesCallCount (establishSession env) = 0 ∧
      (establishSession env).header = some ("Bearer " ++ v.accessToken) ∧
      (establishSession env).crashed = false) := by
  have hf : isTokenFresh env.now v.expiresAt = false := by
    simp [isTokenFresh]
    omega
  constructor
  · cases hro : env.refreshOutcome <;>
      cases hfa : env.faceId <;>
      cases hbio : env.bioSuccess <;>
      cases hcur : env.currenciesOutcome <;>
      simp [establishSession, hst, parseStored, ha, hb, refreshStep, hf, hro,
            applyRefreshSuccess, afterRefreshSteps, faceIdCheck, hfa, hbio,
            goToOauth, currenciesStep, hcur, installHeader, GuardState.init,
            refreshCallArgs]
  · intro hout
    simp [establishSession, hst, parseStored, ha, hb, refreshStep, hf, hout,
          installHeader, GuardState.init, redirectCount, refreshCallArgs,
          bioPromptCount, toastDescriptions, currenciesCallCount]

/-- C5 witness: the theorem applied to the spec's scenario, a credential
`{accessToken := "A", refreshToken := "R", expiresAt := now - 1000}` whose
refresh fails with message `"boom"`. -/
theorem stale_credential_refresh_once_failure_toast_witness :
    refreshCallArgs (establishSession ⟨some (Blob.value ⟨"A", "R", -1000⟩), "https://backend", false, 0, Except.error "boom", true, Except.ok ()⟩) = ["R"] ∧
    toastDescriptions (establishSession ⟨some (Blob.value ⟨"A", "R", -1000⟩), "https://backend", false, 0, Except.error "boom", true, Except.ok ()⟩) = [errorToastDescription "boom"] ∧
    redirectCount (establishSession ⟨some (Blob.value ⟨"A", "R", -1000⟩), "https://backend", false, 0, Except.error "boom", true, Except.ok ()⟩) = 0 ∧
    bioPromptCount (establishSession ⟨some (Blob.value ⟨"A", "R", -1000⟩), "https://backend", false, 0, Except.error "boom", true, Except.ok ()⟩) = 0 ∧
    currenciesCallCount (establishSession ⟨some (Blob.value ⟨"A", "R", -1000⟩), "https://backend", false, 0, Except.error "boom", true, Except.ok ()⟩) = 0 ∧
    (establishSession ⟨some (Blob.value ⟨"A", "R", -1000⟩), "https://backend", false, 0, Except.error "boom", true, Except.ok ()⟩).header = some ("Bearer " ++ "A") ∧
    (establishSession ⟨some (Blob.value ⟨"A", "R", -1000⟩), "https://backend", false, 0, Except.error "boom", true, Except.ok ()⟩).crashed = false :=
  ⟨(stale_credential_refresh_once_failure_toast
      ⟨some (Blob.value ⟨"A", "R", -1000⟩), "https://backend", false, 0, Except.error "boom", true, Except.ok ()⟩
      ⟨"A", "R", -1000⟩ "boom" rfl (by decide) (by decide) (by decide)).1,
   (stale_credential_refresh_once_failure_toast
      ⟨some (Blob.value ⟨"A", "R", -1000⟩), "https://backend", false, 0, Except.error "boom", true, Except.ok ()⟩
      ⟨"A", "R", -1000⟩ "boom" rfl (by decide) (by decide) (by decide)).2 rfl⟩

/-- C9: even when the stored credential is present, parsable and carries an
access token, an unset `backendURL` makes the session guard redirect to
login at once: no header install, no refresh call, no biometric prompt, no
data call — the resulting state is exactly one redirect event. -/
theorem missing_backendURL_redirects_silently
    (env : Env) (v : StorageValue)
    (hst : env.stored = some (Blob.value v))
    (_ha : v.accessToken ≠ "")
    (hb : env.backendURL = "") :
    establishSession env = { header := none, events := [Ev.redirect], crashed := false } := by
  simp [establishSession, hst, parseStored, hb, goToOauth, GuardState.init]

/-- C9 witness: the theorem applied to a concrete valid credential with
`backendURL` unset. -/
theorem missing_backendURL_redirects_silently_witness :
    establishSession ⟨some (Blob.value ⟨"A", "R", 10⟩), "", true, 0, Except.error "boom", false, Except.ok ()⟩ =
      { header := none, events := [Ev.redirect], crashed := false } :=
  missing_backendURL_redirects_silently
    ⟨some (Blob.value ⟨"A", "R", 10⟩), "", true, 0, Except.error "boom", false, Except.ok ()⟩
    ⟨"A", "R", 10⟩ rfl (by decide) rfl


/-- C6: whenever the biometric lock is enabled and the biometric prompt is
reached (the token was fresh, or the refresh call succeeded) but does not
report success, the guard triggers exactly one redirect to login — the same
navigation reset a missing credential triggers — regardless of whether the
stored token was still valid; and the biometric prompt never precedes a
refresh call in the effect trace. -/
theorem biometric_denied_redirects_after_refresh
    (env : Env) (v : StorageValue)
    (hst : env.stored = some (Blob.value v))
    (ha : v.accessToken ≠ "")
    (hb : env.backendURL ≠ "")
    (hface : env.faceId = true)
    (hbio : env.bioSuccess = false)
    (hreach : isTokenFresh env.now v.expiresAt = true ∨ ∃ c, env.refreshOutcome = Except.ok c) :
    redirectCount (establishSession env) = 1 ∧
    bioPromptCount (establishSession env) = 1 ∧
    noRefreshCallAfterBio (establishSession env).events = true ∧
    (establishSession env).crashed = false := by
  rcases hreach with hf | ⟨c, hc⟩
  · cases hcur : env.currenciesOutcome <;>
      simp [establishSession, hst, parseStored, ha, hb, refreshStep, hf,
            afterRefreshSteps, faceIdCheck, hface, hbio, goToOauth,
            currenciesStep, hcur, installHeader, GuardState.init,
            redirectCount, bioPromptCount, noRefreshCallAfterBio]
  · cases hf : isTokenFresh env.now v.expiresAt <;>
      cases hcur : env.currenciesOutcome <;>
      simp [establishSession, hst, parseStored, ha, hb, refreshStep, hf, hc,
            applyRefreshSuccess, afterRefreshSteps, faceIdCheck, hface, hbio,
            goToOauth, currenciesStep, hcur, installHeader, GuardState.init,
            redirectCount, bioPromptCount, noRefreshCallAfterBio]

/-- C6 witness: the theorem applied to a concrete fresh credential with the
biometric lock enabled and a denied prompt. -/
theorem biometric_denied_redirects_after_refresh_witness :
    redirectCount (establishSession ⟨some (Blob.value ⟨"A", "R", 10⟩), "https://backend", true, 0, Except.error "boom", false, Except.ok ()⟩) = 1 ∧
    bioPromptCount (establishSession ⟨some (Blob.value ⟨"A", "R", 10⟩), "https://backend", true, 0, Except.error "boom", false, Except.ok ()⟩) = 1 ∧
    noRefreshCallAfterBio (establishSession ⟨some (Blob.value ⟨"A", "R", 10⟩), "https://backend", true, 0, Except.error "boom", false, Except.ok ()⟩).events = true ∧
    (establishSession ⟨some (Blob.value ⟨"A", "R", 10⟩), "https://backend", true, 0, Except.error "boom", false, Except.ok ()⟩).crashed = false :=
  biometric_denied_redirects_after_refresh
    ⟨some (Blob.value ⟨"A", "R", 10⟩), "https://backend", true, 0, Except.error "boom", false, Except.ok ()⟩
    ⟨"A", "R", 10⟩ rfl (by decide) (by decide) rfl rfl (Or.inl (by decide))

/-- C10: a denied biometric prompt is not terminal for the session-guard
run: the global auth header remains set (it is not cleared), the guard
still issues exactly one currencies fetch, and that fetch occurs after the
navigation reset in the effect trace. -/
theorem biometric_denial_not_terminal
    (env : Env) (v : StorageValue)
    (hst : env.stored = some (Blob.value v))
    (ha : v.accessToken ≠ "")
    (hb : env.backendURL ≠ "")
    (hface : env.faceId = true)
    (hbio : env.bioSuccess = false)
    (hreach : isTokenFresh env.now v.expiresAt = true ∨ ∃ c, env.refreshOutcome = Except.ok c) :
    (establishSession env).header ≠ none ∧
    currenciesCallCount (establishSession env) = 1 ∧
    currenciesAfterRedirect (establishSession env).events = true := by
  rcases hreach with hf | ⟨c, hc⟩
  · cases hcur : env.currenciesOutcome <;>
      simp [establishSession, hst, parseStored, ha, hb, refreshStep, hf,
            afterRefreshSteps, faceIdCheck, hface, hbio, goToOauth,
            currenciesStep, hcur, installHeader, GuardState.init,
            currenciesCallCount, currenciesAfterRedirect]
  · cases hf : isTokenFresh env.now v.expiresAt <;>
      cases hcur : env.currenciesOutcome <;>
      simp [establishSession, hst, parseStored, ha, hb, refreshStep, hf, hc,
            applyRefreshSuccess, afterRefreshSteps, faceIdCheck, hface, hbio,
            goToOauth, currenciesStep, hcur, installHeader, GuardState.init,
            currenciesCallCount, currenciesAfterRedirect]

/-- C10 witness: the theorem applied to a concrete stale credential whose
refresh succeeds, with the biometric lock enabled and a denied prompt. -/
theorem biometric_denial_not_terminal_witness :
    (establishSession ⟨some (Blob.value ⟨"A", "R", -5⟩), "https://backend", true, 0, Except.ok ⟨"N", "R2", 99⟩, false, Except.ok ()⟩).header ≠ none ∧
    currenciesCallCount (establishSession ⟨some (Blob.value ⟨"A", "R", -5⟩), "https://backend", true, 0, Except.ok ⟨"N", "R2", 99⟩, false, Except.ok ()⟩) = 1 ∧
    currenciesAfterRedirect (establishSession ⟨some (Blob.value ⟨"A", "R", -5⟩), "https://backend", true, 0, Except.ok ⟨"N", "R2", 99⟩, false, Except.ok ()⟩).events = true :=
  biometric_denial_not_terminal
    ⟨some (Blob.value ⟨"A", "R", -5⟩), "https://backend", true, 0, Except.ok ⟨"N", "R2", 99⟩, false, Except.ok ()⟩
    ⟨"A", "R", -5⟩ rfl (by decide) (by decide) rfl rfl (Or.inr ⟨⟨"N", "R2", 99⟩, rfl⟩)

/-- C3 (code evaluation at the failing input): a stored credential blob that
fails to parse does not produce a redirect — `JSON.parse` runs outside the
`try`/`catch`, so the guard aborts with an uncaught exception: no redirect
event, no toast, no header install, no further step, where the spec demands
a silent redirect to login. -/
theorem malformed_credential_uncaught_parse_failure :
    establishSession ⟨some Blob.malformed, "https://backend", false, 0, Except.error "boom", true, Except.ok ()⟩ =
      { header := none, events := [], crashed := true } ∧
    redirectCount (establishSession ⟨some Blob.malformed, "https://backend", false, 0, Except.error "boom", true, Except.ok ()⟩) = 0 :=
  ⟨rfl, rfl⟩


/-- C1 (counterexample): the fingerprint slot is recorded at trigger time
even when the batch does not successfully complete.  First trigger: header
set, fingerprint `(2024-01-01, 2024-01-31, USD)`, the accounts fetch
rejects — so no batch successfully completed (`lastCompleted` stays
`none`).  Second trigger with the same fingerprint, which therefore differs
from the last successfully-fetched-for fingerprint: the code issues zero
fetches (the state is unchanged), refuting the claimed `iff`. -/
theorem fingerprint_recorded_without_successful_batch :
    (onTrigger true ⟨"2024-01-01", "2024-01-31", "USD"⟩
        ⟨Except.ok "nw", Except.error "accounts down", Except.ok "cat", Except.ok "bud"⟩
        false CoordState.init).lastCompleted = none ∧
    (onTrigger true ⟨"2024-01-01", "2024-01-31", "USD"⟩
        ⟨Except.ok "nw", Except.error "accounts down", Except.ok "cat", Except.ok "bud"⟩
        false CoordState.init).fetchesIssued = 4 ∧
    onTrigger true ⟨"2024-01-01", "2024-01-31", "USD"⟩
        ⟨Except.ok "nw2", Except.ok "acc2", Except.ok "cat2", Except.ok "bud2"⟩ false
        (onTrigger true ⟨"2024-01-01", "2024-01-31", "USD"⟩
          ⟨Except.ok "nw", Except.error "accounts down", Except.ok "cat", Except.ok "bud"⟩
          false CoordState.init) =
      onTrigger true ⟨"2024-01-01", "2024-01-31", "USD"⟩
        ⟨Except.ok "nw", Except.error "accounts down", Except.ok "cat", Except.ok "bud"⟩
        false CoordState.init :=
  ⟨rfl, rfl, rfl⟩

/-- C1 (amended): a batch of fetches is issued if and only if the auth
header is set and the trigger's fingerprint differs from the last
fingerprint recorded by a previous trigger — the fingerprint slot is
recorded at trigger time, regardless of whether the batch completes
successfully; after any trigger the slot holds the trigger's fingerprint,
so a second consecutive trigger with the same fingerprint leaves the state
untouched and issues zero fetches. -/
theorem refetch_iff_fingerprint_differs_from_last_trigger
    (h : Bool) (fp : Fingerprint) (out : FetchOutcomes) (d : Bool) (s : CoordState)
    (h2 : Bool) (out2 : FetchOutcomes) (d2 : Bool) :
    (onTrigger h fp out d s).prevFilters = some (fingerprintString fp) ∧
    ((onTrigger h fp out d s).fetchBatches = s.fetchBatches + 1 ↔
      h = true ∧ s.prevFilters ≠ some (fingerprintString fp)) ∧
    onTrigger h2 fp out2 d2 (onTrigger h fp out d s) = onTrigger h fp out d s := by
  by_cases hc : s.prevFilters = some (fingerprintString fp)
  · simp [onTrigger, hc]
  · cases h <;> cases hbf : batchFailed out <;>
      simp [onTrigger, fetchData, hc, hbf]

/-- C2 (counterexample): the fingerprint slot is updated even when the
screen is navigated away from mid-flight.  A trigger whose batch starts
while the screen is active but completes after deactivation (the
deactivation argument is `true`) still moves `prevFiltersRef` from `none`
to the new fingerprint, where the claim demands that no state be updated. -/
theorem fingerprint_updated_despite_deactivation :
    (onTrigger true ⟨"2024-01-01", "2024-01-31", "USD"⟩
        ⟨Except.ok "nw", Except.ok "acc", Except.ok "cat", Except.ok "bud"⟩
        true CoordState.init).prevFilters = some "2024-01-01-2024-01-31-USD" ∧
    CoordState.init.prevFilters = none :=
  ⟨rfl, rfl⟩

/-- C2 (amended): for every trigger whose fingerprint differs from the
recorded one, with the auth header set, exactly one concurrent batch of the
four fetch families is issued, and the fingerprint slot is updated to the
new value synchronously at trigger time — before the batch resolves,
irrespective of the batch's outcome and of whether the screen stays active
through completion. -/
theorem changed_fingerprint_single_batch_eager_record
    (fp : Fingerprint) (out : FetchOutcomes) (d : Bool) (s : CoordState)
    (hdiff : s.prevFilters ≠ some (fingerprintString fp)) :
    (onTrigger true fp out d s).fetchBatches = s.fetchBatches + 1 ∧
    (onTrigger true fp out d s).fetchesIssued = s.fetchesIssued + 4 ∧
    (onTrigger true fp out d s).prevFilters = some (fingerprintString fp) ∧
    onTrigger true fp out true s = onTrigger true fp out false s := by
  cases hbf : batchFailed out <;> simp [onTrigger, fetchData, hdiff, hbf]

/-- C2 witness: the amended theorem applied to a concrete first trigger. -/
theorem changed_fingerprint_single_batch_eager_record_witness :
    (onTrigger true ⟨"2024-01-01", "2024-01-31", "USD"⟩
        ⟨Except.ok "nw", Except.ok "acc", Except.ok "cat", Except.ok "bud"⟩
        false CoordState.init).fetchBatches = CoordState.init.fetchBatches + 1 ∧
    (onTrigger true ⟨"2024-01-01", "2024-01-31", "USD"⟩
        ⟨Except.ok "nw", Except.ok "acc", Except.ok "cat", Except.ok "bud"⟩
        false CoordState.init).fetchesIssued = CoordState.init.fetchesIssued + 4 ∧
    (onTrigger true ⟨"2024-01-01", "2024-01-31", "USD"⟩
        ⟨Except.ok "nw", Except.ok "acc", Except.ok "cat", Except.ok "bud"⟩
        false CoordState.init).prevFilters = some (fingerprintString ⟨"2024-01-01", "2024-01-31", "USD"⟩) ∧
    onTrigger true ⟨"2024-01-01", "2024-01-31", "USD"⟩
        ⟨Except.ok "nw", Except.ok "acc", Except.ok "cat", Except.ok "bud"⟩
        true CoordState.init =
      onTrigger true ⟨"2024-01-01", "2024-01-31", "USD"⟩
        ⟨Except.ok "nw", Except.ok "acc", Except.ok "cat", Except.ok "bud"⟩
        false CoordState.init :=
  changed_fingerprint_single_batch_eager_record
    ⟨"2024-01-01", "2024-01-31", "USD"⟩
    ⟨Except.ok "nw", Except.ok "acc", Except.ok "cat", Except.ok "bud"⟩
    false CoordState.init (by decide)

/-- C8: for every batch in which one of the four fetch families rejects —
whichever of the four it is — the coordinator swallows the failure: the
toast, redirect and crash observers are unchanged for arbitrary outcomes,
and in each of the four single-failure scenarios the resulting state is
exactly the previous one with the results of the three resolving families
written, the slot of the failing family retained, one batch of four fetches
issued and the fingerprint slot recorded (so in particular `toasts`,
`redirects`, `crashed` and `lastCompleted` are untouched). -/
theorem partial_fetch_failure_swallowed
    (fp : Fingerprint) (d : Bool) (s : CoordState)
    (r1 r2 r3 r4 emsg : String) (o1 o2 o3 o4 : Except String String)
    (hdiff : s.prevFilters ≠ some (fingerprintString fp)) :
    ((onTrigger true fp ⟨o1, o2, o3, o4⟩ d s).toasts = s.toasts ∧
     (onTrigger true fp ⟨o1, o2, o3, o4⟩ d s).redirects = s.redirects ∧
     (onTrigger true fp ⟨o1, o2, o3, o4⟩ d s).crashed = s.crashed) ∧
    onTrigger true fp ⟨Except.error emsg, Except.ok r2, Except.ok r3, Except.ok r4⟩ d s =
      { s with
          results := { netWorth := s.results.netWorth, accounts := some r2,
                       categories := some r3, budgets := some r4 }
          fetchBatches := s.fetchBatches + 1
          fetchesIssued := s.fetchesIssued + 4
          prevFilters := some (fingerprintString fp) } ∧
    onTrigger true fp ⟨Except.ok r1, Except.error emsg, Except.ok r3, Except.ok r4⟩ d s =
      { s with
          results := { netWorth := some r1, accounts := s.results.accounts,
                       categories := some r3, budgets := some r4 }
          fetchBatches := s.fetchBatches + 1
          fetchesIssued := s.fetchesIssued + 4
          prevFilters := some (fingerprintString fp) } ∧
    onTrigger true fp ⟨Except.ok r1, Except.ok r2, Except.error emsg, Except.ok r4⟩ d s =
      { s with
          results := { netWorth := some r1, accounts := some r2,
                       categories := s.results.categories, budgets := some r4 }
          fetchBatches := s.fetchBatches + 1
          fetchesIssued := s.fetchesIssued + 4
          prevFilters := some (fingerprintString fp) } ∧
    onTrigger true fp ⟨Except.ok r1, Except.ok r2, Except.ok r3, Except.error emsg⟩ d s =
      { s with
          results := { netWorth := some r1, accounts := some r2,
                       categories := some r3, budgets := s.results.budgets }
          fetchBatches := s.fetchBatches + 1
          fetchesIssued := s.fetchesIssued + 4
          prevFilters := some (fingerprintString fp) } := by
  refine ⟨⟨?_, ?_, ?_⟩, ?_, ?_, ?_, ?_⟩
  · cases hbf : batchFailed ⟨o1, o2, o3, o4⟩ <;> simp [onTrigger, fetchData, hdiff, hbf]
  · cases hbf : batchFailed ⟨o1, o2, o3, o4⟩ <;> simp [onTrigger, fetchData, hdiff, hbf]
  · cases hbf : batchFailed ⟨o1, o2, o3, o4⟩ <;> simp [onTrigger, fetchData, hdiff, hbf]
  all_goals simp [onTrigger, fetchData, hdiff, batchFailed, applyOutcome]

/-- C8 witness: the theorem applied to a concrete first trigger, spelling
out the accounts-rejecting and budgets-rejecting scenarios and the frame
facts for a batch with a rejecting family. -/
theorem partial_fetch_failure_swallowed_witness :
    (onTrigger true ⟨"2024-01-01", "2024-01-31", "USD"⟩
        ⟨Except.ok "nw", Except.error "accounts down", Except.ok "cat", Except.ok "bud"⟩
        false CoordState.init).toasts = CoordState.init.toasts ∧
    (onTrigger true ⟨"2024-01-01", "2024-01-31", "USD"⟩
        ⟨Except.ok "nw", Except.error "accounts down", Except.ok "cat", Except.ok "bud"⟩
        false CoordState.init).redirects = CoordState.init.redirects ∧
    onTrigger true ⟨"2024-01-01", "2024-01-31", "USD"⟩
        ⟨Except.ok "nw", Except.error "accounts down", Except.ok "cat", Except.ok "bud"⟩
        false CoordState.init =
      { CoordState.init with
          results := { netWorth := some "nw", accounts := CoordState.init.results.accounts,
                       categories := some "cat", budgets := some "bud" }
          fetchBatches := CoordState.init.fetchBatches + 1
          fetchesIssued := CoordState.init.fetchesIssued + 4
          prevFilters := some (fingerprintString ⟨"2024-01-01", "2024-01-31", "USD"⟩) } ∧
    onTrigger true ⟨"2024-01-01", "2024-01-31", "USD"⟩
        ⟨Except.ok "nw", Except.ok "acc", Except.ok "cat", Except.error "budgets down"⟩
        false CoordState.init =
      { CoordState.init with
          results := { netWorth := some "nw", accounts := some "acc",
                       categories := some "cat", budgets := CoordState.init.results.budgets }
          fetchBatches := CoordState.init.fetchBatches + 1
          fetchesIssued := CoordState.init.fetchesIssued + 4
          prevFilters := some (fingerprintString ⟨"2024-01-01", "2024-01-31", "USD"⟩) } :=
  ⟨(partial_fetch_failure_swallowed ⟨"2024-01-01", "2024-01-31", "USD"⟩ false CoordState.init
      "nw" "acc" "cat" "bud" "accounts down"
      (Except.ok "nw") (Except.error "accounts down") (Except.ok "cat") (Except.ok "bud")
      (by decide)).1.1,
   (partial_fetch_failure_swallowed ⟨"2024-01-01", "2024-01-31", "USD"⟩ false CoordState.init
      "nw" "acc" "cat" "bud" "accounts down"
      (Except.ok "nw") (Except.error "accounts down") (Except.ok "cat") (Except.ok "bud")
      (by decide)).1.2.1,
   (partial_fetch_failure_swallowed ⟨"2024-01-01", "2024-01-31", "USD"⟩ false CoordState.init
      "nw" "acc" "cat" "bud" "accounts down"
      (Except.ok "nw") (Except.error "accounts down") (Except.ok "cat") (Except.ok "bud")
      (by decide)).2.2.1,
   (partial_fetch_failure_swallowed ⟨"2024-01-01", "2024-01-31", "USD"⟩ false CoordState.init
      "nw" "acc" "cat" "bud" "budgets down"
      (Except.ok "nw") (Except.error "budgets down") (Except.ok "cat") (Except.ok "bud")
      (by decide)).2.2.2.2⟩

/-- C4 (counterexample): the auth-header slot is not cleared when a
redirect-to-login occurs.  With a fresh credential, the biometric lock
enabled and the prompt denied, the guard triggers a redirect yet the header
still holds the bearer token. -/
theorem header_not_cleared_on_redirect :
    redirectCount (establishSession ⟨some (Blob.value ⟨"A", "R", 10⟩), "https://backend", true, 0, Except.error "boom", false, Except.ok ()⟩) = 1 ∧
    (establishSession ⟨some (Blob.value ⟨"A", "R", 10⟩), "https://backend", true, 0, Except.error "boom", false, Except.ok ()⟩).header = some "Bearer A" :=
  ⟨rfl, rfl⟩

/-- C4 (amended): the auth-header slot is set by the session guard
immediately after a successful credential load (and moved to the refreshed
token on a successful refresh) and is never cleared by this screen, a
redirect-to-login included; and the refresh coordinator issues no data
fetch while the slot is unset. -/
theorem header_set_never_cleared_and_no_fetch_unset :
    (∀ (fp : Fingerprint) (out : FetchOutcomes) (d : Bool) (s : CoordState),
      (onTrigger false fp out d s).fetchesIssued = s.fetchesIssued ∧
      (onTrigger false fp out d s).fetchBatches = s.fetchBatches) ∧
    (∀ (env : Env) (v : StorageValue),
      env.stored = some (Blob.value v) → v.accessToken ≠ "" → env.backendURL ≠ "" →
      (establishSession env).header ≠ none) := by
  constructor
  · intro fp out d s
    by_cases hc : s.prevFilters = some (fingerprintString fp) <;>
      simp [onTrigger, fetchData, hc]
  · intro env v hst ha hb
    cases hf : isTokenFresh env.now v.expiresAt <;>
      cases hro : env.refreshOutcome <;>
      cases hfa : env.faceId <;>
      cases hbio : env.bioSuccess <;>
      cases hcur : env.currenciesOutcome <;>
      simp [establishSession, hst, parseStored, ha, hb, refreshStep, hf, hro,
            applyRefreshSuccess, afterRefreshSteps, faceIdCheck, hfa, hbio,
            goToOauth, currenciesStep, hcur, installHeader, GuardState.init]

/-- C4 witness: both parts applied to concrete inputs — an unset header
blocks the batch, and the guard leaves the header set after a bio-denied
redirect. -/
theorem header_set_never_cleared_and_no_fetch_unset_witness :
    (onTrigger false ⟨"2024-01-01", "2024-01-31", "USD"⟩
        ⟨Except.ok "nw", Except.ok "acc", Except.ok "cat", Except.ok "bud"⟩
        false CoordState.init).fetchesIssued = CoordState.init.fetchesIssued ∧
    (establishSession ⟨some (Blob.value ⟨"A", "R", 10⟩), "https://backend", true, 0, Except.error "boom", false, Except.ok ()⟩).header ≠ none :=
  ⟨(header_set_never_cleared_and_no_fetch_unset.1
      ⟨"2024-01-01", "2024-01-31", "USD"⟩
      ⟨Except.ok "nw", Except.ok "acc", Except.ok "cat", Except.ok "bud"⟩
      false CoordState.init).1,
   header_set_never_cleared_and_no_fetch_unset.2
      ⟨some (Blob.value ⟨"A", "R", 10⟩), "https://backend", true, 0, Except.error "boom", false, Except.ok ()⟩
      ⟨"A", "R", 10⟩ rfl (by decide) (by decide)⟩

end HomeScreen
